import Mathlib

/-!
Verification of the Stripe serverless backend (Vercel deployment):
a shallow embedding of the webhook ingress handler
(`/api/stripe/webhook.js`) and the payment-intent proxy
(`/api/stripe/create-payment-intent.js`), with theorems checking the
repository's specification against the code.
-/

namespace VercelStripe

/-! ## Webhook signature scheme

Modelled from the spec: signature verification is performed by the vendor
SDK (`stripe.webhooks.constructEvent`), whose code is not part of this
repository.  The spec describes the scheme as "recompute the expected
signature over the raw body using the shared secret and a vendor-defined
signing scheme (HMAC-based)" and "reject with an authentication error on
mismatch".  The vendor-defined MAC itself is unspecified; we idealize it
as a perfect (collision-free) MAC: the signature value determines the
exact (body, secret) pair it was computed from.  Verification compares
the presented signature with the recomputed one, as the spec states. -/

/-- Modelled from the spec: the vendor-defined MAC over the raw body and
the shared secret, idealized as a perfect MAC (injective in both
arguments).  Bodies are raw bit strings, per the spec's requirement that
verification operate on unparsed bytes. -/
def computeSignature (body : List Bool) (secret : String) : List Bool × String :=
  (body, secret)

/-- Verification recomputes the expected signature over the raw body with
the configured secret and compares it with the presented signature. -/
def verifySignature (body : List Bool) (sig : List Bool × String) (secret : String) : Bool :=
  decide (sig = computeSignature body secret)

/-- Flip the bit at index `i` of a raw body (used to state the
single-bit-mutation property). -/
def flipBit (body : List Bool) (i : Nat) : List Bool :=
  body.set i (!(body.getD i false))

/-- Whether an HTTP status code is in the 400 class. -/
def is400Class (s : Nat) : Bool :=
  decide (400 ≤ s) && decide (s < 500)

/-! ## Webhook ingress handler (`/api/stripe/webhook.js`) -/

namespace Webhook

/-- The verified event envelope produced by `constructEvent`: an event
identifier and an event type string. -/
structure StripeEvent where
  id : String
  type : String
  deriving DecidableEq, Repr

/-- An inbound webhook request: HTTP method, raw (unparsed) body, and the
optional `stripe-signature` header. -/
structure WebhookReq where
  method : String
  rawBody : List Bool
  sigHeader : Option (List Bool × String)
  deriving DecidableEq, Repr

/-- Response bodies the webhook handler can produce: a plain-text error
(`res.status(..).send(..)`) or the JSON acknowledgement
`res.json(\x7breceived: true, event_type\x7d)`. -/
inductive WebhookBody
  | text (s : String)
  | ackJson (received : Bool) (eventType : String)
  deriving DecidableEq, Repr

/-- An HTTP response: status code and body. -/
structure WebhookResp where
  status : Nat
  body : WebhookBody
  deriving DecidableEq, Repr

/-- Operations the handler could perform against external collaborators:
a lookup in a processed-event store, a record in that store, or a durable
write to the persistence sink.  The handler's trace of such operations is
returned alongside the response. -/
inductive SideOp
  | storeLookup (eventId : String)
  | storeRecord (eventId : String)
  | sinkWrite (eventId : String)
  deriving DecidableEq, Repr

/-- A side operation is durable when it writes to the store or the sink. -/
def isDurable : SideOp → Bool
  | SideOp.storeRecord _ => true
  | SideOp.sinkWrite _ => true
  | SideOp.storeLookup _ => false

/-- A side operation is a processed-event-store consultation. -/
def isStoreLookup : SideOp → Bool
  | SideOp.storeLookup _ => true
  | SideOp.storeRecord _ => false
  | SideOp.sinkWrite _ => false

/-- Body of `handlePaymentSuccess` inside its `try`: it only logs the
payment details (the Firebase update is an unimplemented TODO), so it
performs no side operation; if the runtime fails it throws. -/
def handlePaymentSuccessTry (fails : Bool) : Except String (List SideOp) :=
  if fails then Except.error "internal failure" else Except.ok []

/-- `handlePaymentSuccess`: runs its body in a `try`/`catch`; the `catch`
logs the error and swallows it, so the function always returns. -/
def handlePaymentSuccess (fails : Bool) : List SideOp :=
  match handlePaymentSuccessTry fails with
  | Except.ok ops => ops
  | Except.error _ => []

/-- Body of `handlePaymentFailed` inside its `try`: logs only. -/
def handlePaymentFailedTry (fails : Bool) : Except String (List SideOp) :=
  if fails then Except.error "internal failure" else Except.ok []

/-- `handlePaymentFailed`: `try`/`catch`, the `catch` swallows errors. -/
def handlePaymentFailed (fails : Bool) : List SideOp :=
  match handlePaymentFailedTry fails with
  | Except.ok ops => ops
  | Except.error _ => []

/-- Body of `handleSubscriptionCreated` inside its `try`: logs only. -/
def handleSubscriptionCreatedTry (fails : Bool) : Except String (List SideOp) :=
  if fails then Except.error "internal failure" else Except.ok []

/-- `handleSubscriptionCreated`: `try`/`catch`, errors swallowed. -/
def handleSubscriptionCreated (fails : Bool) : List SideOp :=
  match handleSubscriptionCreatedTry fails with
  | Except.ok ops => ops
  | Except.error _ => []

/-- Body of `handleSubscriptionUpdated` inside its `try`: logs only. -/
def handleSubscriptionUpdatedTry (fails : Bool) : Except String (List SideOp) :=
  if fails then Except.error "internal failure" else Except.ok []

/-- `handleSubscriptionUpdated`: `try`/`catch`, errors swallowed. -/
def handleSubscriptionUpdated (fails : Bool) : List SideOp :=
  match handleSubscriptionUpdatedTry fails with
  | Except.ok ops => ops
  | Except.error _ => []

/-- Body of `handleSubscriptionCancelled` inside its `try`: logs only. -/
def handleSubscriptionCancelledTry (fails : Bool) : Except String (List SideOp) :=
  if fails then Except.error "internal failure" else Except.ok []

/-- `handleSubscriptionCancelled`: `try`/`catch`, errors swallowed. -/
def handleSubscriptionCancelled (fails : Bool) : List SideOp :=
  match handleSubscriptionCancelledTry fails with
  | Except.ok ops => ops
  | Except.error _ => []

/-- Body of `handleInvoicePayment` inside its `try`: logs only. -/
def handleInvoicePaymentTry (fails : Bool) : Except String (List SideOp) :=
  if fails then Except.error "internal failure" else Except.ok []

/-- `handleInvoicePayment`: `try`/`catch`, errors swallowed. -/
def handleInvoicePayment (fails : Bool) : List SideOp :=
  match handleInvoicePaymentTry fails with
  | Except.ok ops => ops
  | Except.error _ => []

/-- Body of `handleInvoicePaymentFailed` inside its `try`: logs only. -/
def handleInvoicePaymentFailedTry (fails : Bool) : Except String (List SideOp) :=
  if fails then Except.error "internal failure" else Except.ok []

/-- `handleInvoicePaymentFailed`: `try`/`catch`, errors swallowed. -/
def handleInvoicePaymentFailed (fails : Bool) : List SideOp :=
  match handleInvoicePaymentFailedTry fails with
  | Except.ok ops => ops
  | Except.error _ => []

/-- The event types recognized by the handler's `switch`. -/
def recognizedTypes : List String :=
  ["payment_intent.succeeded", "payment_intent.payment_failed",
   "customer.subscription.created", "customer.subscription.updated",
   "customer.subscription.deleted", "invoice.payment_succeeded",
   "invoice.payment_failed"]

/-- The `switch (event.type)` dispatch: each recognized case awaits its
per-type handler; the `default` case only logs the unhandled type. -/
def dispatchEvent (event : StripeEvent) (downstreamFails : Bool) : List SideOp :=
  if event.type = "payment_intent.succeeded" then handlePaymentSuccess downstreamFails
  else if event.type = "payment_intent.payment_failed" then handlePaymentFailed downstreamFails
  else if event.type = "customer.subscription.created" then
    handleSubscriptionCreated downstreamFails
  else if event.type = "customer.subscription.updated" then
    handleSubscriptionUpdated downstreamFails
  else if event.type = "customer.subscription.deleted" then
    handleSubscriptionCancelled downstreamFails
  else if event.type = "invoice.payment_succeeded" then handleInvoicePayment downstreamFails
  else if event.type = "invoice.payment_failed" then handleInvoicePaymentFailed downstreamFails
  else []

/-- The webhook handler.  `parseEvent` stands for the vendor SDK's parse
of the verified raw body into an event envelope; `webhookSecret` is the
`STRIPE_WEBHOOK_SECRET` environment variable; `downstreamFails` says
whether the per-event-type handler's body fails internally.  Returns the
HTTP response and the trace of external side operations performed. -/
def handler (parseEvent : List Bool → StripeEvent) (webhookSecret : Option String)
    (req : WebhookReq) (downstreamFails : Bool) : WebhookResp × List SideOp :=
  if req.method ≠ "POST" then (⟨405, WebhookBody.text ""⟩, [])
  else
    match req.sigHeader with
    | none => (⟨400, WebhookBody.text "Missing Stripe signature"⟩, [])
    | some sig =>
      match webhookSecret with
      | none => (⟨500, WebhookBody.text "Webhook secret not configured"⟩, [])
      | some secret =>
        if verifySignature req.rawBody sig secret then
          let event := parseEvent req.rawBody
          let ops := dispatchEvent event downstreamFails
          (⟨200, WebhookBody.ackJson true event.type⟩, ops)
        else
          (⟨400, WebhookBody.text "Webhook Error: signature verification failed"⟩, [])

/-- A sample parse outcome for concrete checks: the raw body parses to
event `evt_1` of type `payment_intent.succeeded`. -/
def sampleParse : List Bool → StripeEvent :=
  fun _ => ⟨"evt_1", "payment_intent.succeeded"⟩

/-- A sample parse outcome whose event type is outside the recognized
set (a future vendor event). -/
def sampleParseUnrecognized : List Bool → StripeEvent :=
  fun _ => ⟨"evt_2", "checkout.session.completed"⟩

/-- A sample verified delivery: POST, one-bit raw body, and the signature
computed over that body with the secret `whsec_test`. -/
def sampleReq : WebhookReq := ⟨"POST", [true], some ([true], "whsec_test")⟩

end Webhook

/-! ## Payment-intent proxy (`/api/stripe/create-payment-intent.js`) -/

namespace CreatePaymentIntent

/-- An error thrown by a Stripe SDK call: its `type` tag
(`StripeCardError`, `StripeInvalidRequestError`, ...) and its message. -/
structure StripeError where
  type : String
  message : String
  deriving DecidableEq, Repr

/-- A Stripe customer object (the fields the handler uses). -/
structure Customer where
  id : String
  email : String
  name : String
  deriving DecidableEq, Repr

/-- A Stripe payment-intent object (the fields the handler uses). -/
structure PaymentIntent where
  id : String
  status : String
  clientSecret : String
  amount : Int
  currency : String
  deriving DecidableEq, Repr

/-- The request body destructured by the handler, together with the HTTP
method.  Absent JSON fields are `none`. -/
structure PIReq where
  method : String
  amount : Option Int
  currency : Option String
  payment_method_id : Option String
  customer_name : Option String
  customer_email : Option String
  plan_type : Option String
  user_country : Option String
  deriving DecidableEq, Repr

/-- JavaScript falsiness of an optional number: absent or `0`. -/
def falsyInt : Option Int → Bool
  | none => true
  | some n => n == 0

/-- JavaScript falsiness of an optional string: absent or empty. -/
def falsyStr : Option String → Bool
  | none => true
  | some s => s == ""

/-- `x || d` on an optional string (JS falsy values replaced by `d`). -/
def orDefault (s : Option String) (d : String) : String :=
  if falsyStr s then d else s.getD d

/-- The outcomes of the Stripe SDK calls the handler can make, supplied
by the environment: `stripe.customers.list`, `stripe.customers.create`,
`stripe.paymentIntents.create`.  An `error` models the SDK throwing. -/
structure StripeWorld where
  listResult : Except StripeError (List Customer)
  createCustomerResult : Except StripeError Customer
  createIntentResult : Except StripeError PaymentIntent
  deriving Repr

/-- The vendor calls the handler performs, in order. -/
inductive VendorCall
  | listCustomers
  | createCustomer
  | createPaymentIntent
  deriving DecidableEq, Repr

/-- The JSON response bodies of the handler, one constructor per
`res.json(...)` shape in the source. -/
inductive PIBody
  | empty
  | methodNotAllowed (error : String)
  | validationError (success : Bool) (error : String)
  | stripeError (success : Bool) (error : String) (type : String)
  | requiresAction (success : Bool) (requires_action : Bool)
      (intentId : String) (clientSecret : String) (status : String) (message : String)
  | paymentSuccess (success : Bool) (intentId : String) (customerId : String)
      (plan_type : String) (start_date : Int) (end_date : Int)
  | paymentFailed (success : Bool) (error : String) (intentId : String) (status : String)
  deriving DecidableEq, Repr

/-- An HTTP response of the payment-intent handler. -/
structure PIResp where
  status : Nat
  body : PIBody
  deriving DecidableEq, Repr

/-- The `catch` block's mapping of a Stripe error to a response:
`StripeCardError` is surfaced with its own message and type `card_error`;
`StripeInvalidRequestError` becomes a generic "Invalid payment request"
with type `invalid_request`; everything else becomes a generic
"Payment processing failed" with type `server_error`. -/
def stripeErrorResp (e : StripeError) : PIResp :=
  if e.type = "StripeCardError" then
    ⟨400, PIBody.stripeError false e.message "card_error"⟩
  else if e.type = "StripeInvalidRequestError" then
    ⟨400, PIBody.stripeError false "Invalid payment request" "invalid_request"⟩
  else
    ⟨500, PIBody.stripeError false "Payment processing failed" "server_error"⟩

/-- `calculateEndDate`: dates are modelled as integer day counts;
`endDate.setDate(endDate.getDate() + n)` adds `n` days.  The source
copies the start date (`new Date(startDate.getTime())`) and mutates only
the copy; the second component of the result is the value of the
`startDate` argument after the call, recording that it is unchanged. -/
def calculateEndDate (startDate : Int) (planType : Option String) : Int × Int :=
  let endDate :=
    if planType = some "weekly" then startDate + 7
    else if planType = some "monthly" then startDate + 30
    else if planType = some "quarterly" then startDate + 90
    else startDate + 30
  (endDate, startDate)

/-- The tail of the handler once a customer is at hand: create the
payment intent and branch on its status (`requires_action` /
`requires_source_action`, `succeeded`, anything else). -/
def intentResp (world : StripeWorld) (now : Int) (req : PIReq) (customer : Customer)
    (calls : List VendorCall) : PIResp × List VendorCall :=
  match world.createIntentResult with
  | Except.error e => (stripeErrorResp e, calls ++ [VendorCall.createPaymentIntent])
  | Except.ok intent =>
    if intent.status = "requires_action" ∨ intent.status = "requires_source_action" then
      (⟨200, PIBody.requiresAction false true intent.id intent.clientSecret intent.status
          "3D Secure authentication required"⟩,
        calls ++ [VendorCall.createPaymentIntent])
    else if intent.status = "succeeded" then
      let plan := orDefault req.plan_type "monthly"
      (⟨200, PIBody.paymentSuccess true intent.id customer.id plan now
          (calculateEndDate now (some plan)).1⟩,
        calls ++ [VendorCall.createPaymentIntent])
    else
      (⟨400, PIBody.paymentFailed false "Payment failed" intent.id intent.status⟩,
        calls ++ [VendorCall.createPaymentIntent])

/-- The payment-intent handler: OPTIONS preflight, method check, required
field validation, customer lookup-or-create, then payment-intent
creation.  Returns the response and the ordered trace of vendor calls;
SDK errors propagate to the `catch` block (`stripeErrorResp`). -/
def handler (world : StripeWorld) (now : Int) (req : PIReq) : PIResp × List VendorCall :=
  if req.method = "OPTIONS" then (⟨200, PIBody.empty⟩, [])
  else if req.method ≠ "POST" then (⟨405, PIBody.methodNotAllowed "Method not allowed"⟩, [])
  else if falsyInt req.amount || falsyStr req.currency || falsyStr req.payment_method_id
      || falsyStr req.customer_email then
    (⟨400, PIBody.validationError false
        "Missing required fields: amount, currency, payment_method_id, customer_email"⟩, [])
  else
    match world.listResult with
    | Except.error e => (stripeErrorResp e, [VendorCall.listCustomers])
    | Except.ok customers =>
      match customers.head? with
      | some c => intentResp world now req c [VendorCall.listCustomers]
      | none =>
        match world.createCustomerResult with
        | Except.error e =>
          (stripeErrorResp e, [VendorCall.listCustomers, VendorCall.createCustomer])
        | Except.ok c =>
          intentResp world now req c [VendorCall.listCustomers, VendorCall.createCustomer]

/-- A sample existing customer. -/
def sampleCustomer : Customer := ⟨"cus_1", "student@example.com", "IELTS Student"⟩

/-- A sample payment intent that requires 3D Secure authentication. -/
def sampleIntent3DS : PaymentIntent := ⟨"pi_1", "requires_action", "pi_1_secret", 1999, "usd"⟩

/-- A sample request with every required field present. -/
def sampleFullReq : PIReq :=
  ⟨"POST", some 1999, some "usd", some "pm_123", some "IELTS Student",
    some "student@example.com", some "monthly", some "Canada"⟩

/-- A sample request missing `customer_email`. -/
def sampleMissingEmailReq : PIReq :=
  ⟨"POST", some 1999, some "usd", some "pm_123", some "IELTS Student",
    none, some "monthly", some "Canada"⟩

/-- A sample vendor environment in which every SDK call succeeds and the
created intent requires 3D Secure. -/
def sampleOkWorld : StripeWorld :=
  ⟨Except.ok [sampleCustomer], Except.ok sampleCustomer, Except.ok sampleIntent3DS⟩

/-- A sample vendor environment whose first SDK call throws a
`StripeInvalidRequestError` with a specific vendor message. -/
def sampleInvalidRequestWorld : StripeWorld :=
  ⟨Except.error ⟨"StripeInvalidRequestError", "No such payment_method: pm_123"⟩,
    Except.ok sampleCustomer, Except.ok sampleIntent3DS⟩

/-- A sample vendor environment whose first SDK call throws a
`StripeCardError` (a declined card). -/
def sampleCardErrorWorld : StripeWorld :=
  ⟨Except.error ⟨"StripeCardError", "Your card was declined."⟩,
    Except.ok sampleCustomer, Except.ok sampleIntent3DS⟩

end CreatePaymentIntent

/-! ## Helper lemmas -/

namespace Webhook

/-- `handlePaymentSuccess` returns an empty trace: its body only logs and
its `catch` swallows internal failures. -/
theorem handlePaymentSuccess_eq_nil (f : Bool) : handlePaymentSuccess f = [] := by
  cases f <;> rfl

/-- `handlePaymentFailed` returns an empty trace. -/
theorem handlePaymentFailed_eq_nil (f : Bool) : handlePaymentFailed f = [] := by
  cases f <;> rfl

/-- `handleSubscriptionCreated` returns an empty trace. -/
theorem handleSubscriptionCreated_eq_nil (f : Bool) : handleSubscriptionCreated f = [] := by
  cases f <;> rfl

/-- `handleSubscriptionUpdated` returns an empty trace. -/
theorem handleSubscriptionUpdated_eq_nil (f : Bool) : handleSubscriptionUpdated f = [] := by
  cases f <;> rfl

/-- `handleSubscriptionCancelled` returns an empty trace. -/
theorem handleSubscriptionCancelled_eq_nil (f : Bool) : handleSubscriptionCancelled f = [] := by
  cases f <;> rfl

/-- `handleInvoicePayment` returns an empty trace. -/
theorem handleInvoicePayment_eq_nil (f : Bool) : handleInvoicePayment f = [] := by
  cases f <;> rfl

/-- `handleInvoicePaymentFailed` returns an empty trace. -/
theorem handleInvoicePaymentFailed_eq_nil (f : Bool) : handleInvoicePaymentFailed f = [] := by
  cases f <;> rfl

/-- The dispatch performs no external side operation at all: every
per-type handler is a logging stub (persistence is an unimplemented
TODO), and the default case only logs. -/
theorem dispatchEvent_eq_nil (e : StripeEvent) (f : Bool) : dispatchEvent e f = [] := by
  simp [dispatchEvent, handlePaymentSuccess_eq_nil, handlePaymentFailed_eq_nil,
    handleSubscriptionCreated_eq_nil, handleSubscriptionUpdated_eq_nil,
    handleSubscriptionCancelled_eq_nil, handleInvoicePayment_eq_nil,
    handleInvoicePaymentFailed_eq_nil]

/-- On a POST with a signature header that verifies against the
configured secret, the handler acknowledges with 200 and performs no
external side operation, whatever the downstream failure flag. -/
theorem handler_verified (parse : List Bool → StripeEvent) (secret : String)
    (req : WebhookReq) (f : Bool) (sig : List Bool × String)
    (hm : req.method = "POST") (hs : req.sigHeader = some sig)
    (hv : verifySignature req.rawBody sig secret = true) :
    handler parse (some secret) req f =
      (⟨200, WebhookBody.ackJson true (parse req.rawBody).type⟩, []) := by
  unfold handler
  simp [hm, hs, hv, dispatchEvent_eq_nil]

end Webhook

/-! ## Claim theorems: webhook ingress handler -/

/-- C4: for all event bodies B and secrets S, verification of B with the
signature computed from (B, S) under secret S succeeds; verification
fails for any single-bit mutation of B and for a signature computed with
a different secret.  (The vendor MAC is modelled from the spec as a
perfect MAC.) -/
theorem signature_scheme_sound (B : List Bool) (S : String) :
    verifySignature B (computeSignature B S) S = true ∧
    (∀ i, i < B.length → verifySignature (flipBit B i) (computeSignature B S) S = false) ∧
    (∀ T, T ≠ S → verifySignature B (computeSignature B T) S = false) := by
  refine ⟨by simp [verifySignature], ?_, ?_⟩
  · intro i hi
    have hne : flipBit B i ≠ B := by
      unfold flipBit
      intro heq
      have h1 : (B.set i (!(B.getD i false)))[i]? = some (!(B.getD i false)) := by
        rw [List.getElem?_set_self (by simpa using hi)]
      rw [heq, List.getElem?_eq_getElem hi, List.getD_eq_getElem B false hi] at h1
      simp at h1
    simp only [verifySignature, computeSignature, decide_eq_false_iff_not]
    intro h
    exact hne (congrArg Prod.fst h).symm
  · intro T hT
    simp only [verifySignature, computeSignature, decide_eq_false_iff_not]
    intro h
    exact hT (congrArg Prod.snd h)

/-- Witness for C4 at a concrete body, secret, bit index and other
secret. -/
theorem signature_scheme_sound_witness :
    verifySignature [true] (computeSignature [true] "whsec_test") "whsec_test" = true ∧
    verifySignature (flipBit [true] 0) (computeSignature [true] "whsec_test") "whsec_test"
      = false ∧
    verifySignature [true] (computeSignature [true] "whsec_other") "whsec_test" = false :=
  ⟨(signature_scheme_sound [true] "whsec_test").1,
    (signature_scheme_sound [true] "whsec_test").2.1 0 (by decide),
    (signature_scheme_sound [true] "whsec_test").2.2 "whsec_other" (by decide)⟩

/-- C1 counterexample: a concrete verified delivery of the recognized
event `evt_1` (type `payment_intent.succeeded`), delivered twice, is
acknowledged with 200 but its combined side-operation trace is empty; in
particular the handler never consults a processed-event store, contrary
to the claim's assertion that one is consulted before side effects. -/
theorem webhook_no_store_consultation_counterexample :
    (Webhook.handler Webhook.sampleParse (some "whsec_test") Webhook.sampleReq false).1.status
      = 200 ∧
    ((Webhook.handler Webhook.sampleParse (some "whsec_test") Webhook.sampleReq false).2 ++
      (Webhook.handler Webhook.sampleParse (some "whsec_test") Webhook.sampleReq false).2)
      = [] ∧
    ((Webhook.handler Webhook.sampleParse (some "whsec_test") Webhook.sampleReq false).2
      ).any Webhook.isStoreLookup = false :=
  ⟨rfl, rfl, rfl⟩

/-- C1 (amended): delivering the same verified event twice yields two 200
acknowledgements and at most one durable side effect (in fact zero: all
per-type handlers are logging stubs); no processed-event store exists in
the implementation to be consulted. -/
theorem webhook_duplicate_delivery_idempotent (parse : List Bool → Webhook.StripeEvent)
    (secret : String) (req : Webhook.WebhookReq) (f1 f2 : Bool) (sig : List Bool × String)
    (hm : req.method = "POST") (hs : req.sigHeader = some sig)
    (hv : verifySignature req.rawBody sig secret = true) :
    (Webhook.handler parse (some secret) req f1).1.status = 200 ∧
    (Webhook.handler parse (some secret) req f2).1.status = 200 ∧
    (((Webhook.handler parse (some secret) req f1).2 ++
      (Webhook.handler parse (some secret) req f2).2).filter Webhook.isDurable).length ≤ 1 := by
  rw [Webhook.handler_verified parse secret req f1 sig hm hs hv,
    Webhook.handler_verified parse secret req f2 sig hm hs hv]
  exact ⟨rfl, rfl, by simp⟩

/-- Witness for the amended C1 at a concrete verified delivery. -/
theorem webhook_duplicate_delivery_idempotent_witness :
    (Webhook.handler Webhook.sampleParse (some "whsec_test") Webhook.sampleReq false).1.status
      = 200 ∧
    (Webhook.handler Webhook.sampleParse (some "whsec_test") Webhook.sampleReq true).1.status
      = 200 ∧
    (((Webhook.handler Webhook.sampleParse (some "whsec_test") Webhook.sampleReq false).2 ++
      (Webhook.handler Webhook.sampleParse (some "whsec_test") Webhook.sampleReq true).2
      ).filter Webhook.isDurable).length ≤ 1 :=
  webhook_duplicate_delivery_idempotent Webhook.sampleParse "whsec_test" Webhook.sampleReq
    false true ([true], "whsec_test") rfl rfl (by decide)

/-- C2: every request whose signature verification succeeds is answered
with the 200 acknowledgement (the JSON `received` body), whether or not
the per-event-type handler fails internally — the failure is caught
inside the handler and never surfaced. -/
theorem webhook_ack_despite_downstream_failure (parse : List Bool → Webhook.StripeEvent)
    (secret : String) (req : Webhook.WebhookReq) (downstreamFails : Bool)
    (sig : List Bool × String)
    (hm : req.method = "POST") (hs : req.sigHeader = some sig)
    (hv : verifySignature req.rawBody sig secret = true) :
    (Webhook.handler parse (some secret) req downstreamFails).1 =
      ⟨200, Webhook.WebhookBody.ackJson true (parse req.rawBody).type⟩ := by
  rw [Webhook.handler_verified parse secret req downstreamFails sig hm hs hv]

/-- Witness for C2 at a concrete verified delivery whose downstream
handler fails internally. -/
theorem webhook_ack_despite_downstream_failure_witness :
    (Webhook.handler Webhook.sampleParse (some "whsec_test") Webhook.sampleReq true).1 =
      ⟨200, Webhook.WebhookBody.ackJson true "payment_intent.succeeded"⟩ :=
  webhook_ack_despite_downstream_failure Webhook.sampleParse "whsec_test" Webhook.sampleReq
    true ([true], "whsec_test") rfl rfl (by decide)

/-- C3 counterexample: a concrete POST carrying a signature header, with
the signing secret unconfigured, is answered with status 500 — a
server-error status, not a 400-class authentication-failure status as
the claim states. -/
theorem webhook_missing_secret_counterexample :
    (Webhook.handler Webhook.sampleParse none Webhook.sampleReq false).1 =
      ⟨500, Webhook.WebhookBody.text "Webhook secret not configured"⟩ ∧
    is400Class (Webhook.handler Webhook.sampleParse none Webhook.sampleReq false).1.status
      = false :=
  ⟨rfl, rfl⟩

/-- C3 (amended): when the signing secret is not configured, a POST that
carries a signature header is rejected with the 500 server-error status
and the plain-text message "Webhook secret not configured" — a status
distinct from the 400 used for a missing or invalid signature — and no
side operation is performed. -/
theorem webhook_missing_secret_500 (parse : List Bool → Webhook.StripeEvent)
    (req : Webhook.WebhookReq) (f : Bool) (sig : List Bool × String)
    (hm : req.method = "POST") (hs : req.sigHeader = some sig) :
    Webhook.handler parse none req f =
      (⟨500, Webhook.WebhookBody.text "Webhook secret not configured"⟩, []) := by
  unfold Webhook.handler
  simp [hm, hs]

/-- Witness for the amended C3 at a concrete request. -/
theorem webhook_missing_secret_500_witness :
    Webhook.handler Webhook.sampleParse none Webhook.sampleReq false =
      (⟨500, Webhook.WebhookBody.text "Webhook secret not configured"⟩, []) :=
  webhook_missing_secret_500 Webhook.sampleParse Webhook.sampleReq false
    ([true], "whsec_test") rfl rfl

/-- C5: every POST lacking the `stripe-signature` header is answered with
the 400 authentication-failure status (distinct from the 200
acknowledgement) and the handler performs no call to the downstream
sink. -/
theorem webhook_missing_signature_rejected (parse : List Bool → Webhook.StripeEvent)
    (webhookSecret : Option String) (req : Webhook.WebhookReq) (f : Bool)
    (hm : req.method = "POST") (hs : req.sigHeader = none) :
    Webhook.handler parse webhookSecret req f =
      (⟨400, Webhook.WebhookBody.text "Missing Stripe signature"⟩, []) ∧
    (Webhook.handler parse webhookSecret req f).1.status ≠ 200 := by
  have h : Webhook.handler parse webhookSecret req f =
      (⟨400, Webhook.WebhookBody.text "Missing Stripe signature"⟩, []) := by
    unfold Webhook.handler
    simp [hm, hs]
  exact ⟨h, by rw [h]; decide⟩

/-- Witness for C5 at a concrete request without a signature header. -/
theorem webhook_missing_signature_rejected_witness :
    Webhook.handler Webhook.sampleParse (some "whsec_test") ⟨"POST", [true], none⟩ false =
      (⟨400, Webhook.WebhookBody.text "Missing Stripe signature"⟩, []) ∧
    (Webhook.handler Webhook.sampleParse (some "whsec_test") ⟨"POST", [true], none⟩
      false).1.status ≠ 200 :=
  webhook_missing_signature_rejected Webhook.sampleParse (some "whsec_test")
    ⟨"POST", [true], none⟩ false rfl rfl

/-- C6: every verified event whose type is outside the recognized set is
acknowledged with 200 and produces zero calls to the persistence sink. -/
theorem webhook_unrecognized_type_acknowledged (parse : List Bool → Webhook.StripeEvent)
    (secret : String) (req : Webhook.WebhookReq) (f : Bool) (sig : List Bool × String)
    (hm : req.method = "POST") (hs : req.sigHeader = some sig)
    (hv : verifySignature req.rawBody sig secret = true)
    (ht : (parse req.rawBody).type ∉ Webhook.recognizedTypes) :
    (Webhook.handler parse (some secret) req f).1.status = 200 ∧
    (Webhook.handler parse (some secret) req f).2 = [] := by
  rw [Webhook.handler_verified parse secret req f sig hm hs hv]
  exact ⟨rfl, rfl⟩

/-- Witness for C6 at a concrete verified event of the unrecognized type
`checkout.session.completed`. -/
theorem webhook_unrecognized_type_acknowledged_witness :
    (Webhook.handler Webhook.sampleParseUnrecognized (some "whsec_test")
      Webhook.sampleReq false).1.status = 200 ∧
    (Webhook.handler Webhook.sampleParseUnrecognized (some "whsec_test")
      Webhook.sampleReq false).2 = [] :=
  webhook_unrecognized_type_acknowledged Webhook.sampleParseUnrecognized "whsec_test"
    Webhook.sampleReq false ([true], "whsec_test") rfl rfl (by decide) (by decide)

/-! ## Claim theorems: payment-intent proxy -/

/-- C7: every POST payment-intent request missing any of the required
fields amount, currency, payment_method_id or customer_email is answered
with the 400 validation error, and the trace of vendor calls is empty —
validation happens before any call to the payment processor. -/
theorem payment_intent_validation_before_vendor (world : CreatePaymentIntent.StripeWorld)
    (now : Int) (req : CreatePaymentIntent.PIReq) (hm : req.method = "POST")
    (hmiss : req.amount = none ∨ req.currency = none ∨
      req.payment_method_id = none ∨ req.customer_email = none) :
    CreatePaymentIntent.handler world now req =
      (⟨400, CreatePaymentIntent.PIBody.validationError false
        "Missing required fields: amount, currency, payment_method_id, customer_email"⟩,
        []) := by
  have hfal : (CreatePaymentIntent.falsyInt req.amount ||
      CreatePaymentIntent.falsyStr req.currency ||
      CreatePaymentIntent.falsyStr req.payment_method_id ||
      CreatePaymentIntent.falsyStr req.customer_email) = true := by
    rcases hmiss with h | h | h | h <;>
      simp [h, CreatePaymentIntent.falsyInt, CreatePaymentIntent.falsyStr]
  unfold CreatePaymentIntent.handler
  simp [hm, hfal]

/-- Witness for C7 at a concrete request missing `customer_email`. -/
theorem payment_intent_validation_before_vendor_witness :
    CreatePaymentIntent.handler CreatePaymentIntent.sampleOkWorld 0
      CreatePaymentIntent.sampleMissingEmailReq =
      (⟨400, CreatePaymentIntent.PIBody.validationError false
        "Missing required fields: amount, currency, payment_method_id, customer_email"⟩,
        []) :=
  payment_intent_validation_before_vendor CreatePaymentIntent.sampleOkWorld 0
    CreatePaymentIntent.sampleMissingEmailReq rfl (Or.inr (Or.inr (Or.inr rfl)))

/-- C8 counterexample: a fully valid request in an environment where the
vendor throws `StripeInvalidRequestError` with the message "No such
payment_method: pm_123" is answered with the generic body "Invalid
payment request" — the vendor's own message is not surfaced verbatim. -/
theorem vendor_error_verbatim_counterexample :
    (CreatePaymentIntent.handler CreatePaymentIntent.sampleInvalidRequestWorld 0
      CreatePaymentIntent.sampleFullReq).1 =
      ⟨400, CreatePaymentIntent.PIBody.stripeError false "Invalid payment request"
        "invalid_request"⟩ ∧
    (CreatePaymentIntent.handler CreatePaymentIntent.sampleInvalidRequestWorld 0
      CreatePaymentIntent.sampleFullReq).1.body ≠
      CreatePaymentIntent.PIBody.stripeError false "No such payment_method: pm_123"
        "invalid_request" :=
  ⟨rfl, by decide⟩

/-- C8 (amended): when the vendor rejects a valid request, the handler
preserves the vendor's classification — card errors map to 400 with type
`card_error` and the vendor's message verbatim; invalid requests map to
400 with type `invalid_request` but a generic message; everything else
maps to 500 with type `server_error` and a generic message. -/
theorem vendor_error_classification (world : CreatePaymentIntent.StripeWorld) (now : Int)
    (req : CreatePaymentIntent.PIReq) (e : CreatePaymentIntent.StripeError)
    (hm : req.method = "POST")
    (ha : CreatePaymentIntent.falsyInt req.amount = false)
    (hc : CreatePaymentIntent.falsyStr req.currency = false)
    (hp : CreatePaymentIntent.falsyStr req.payment_method_id = false)
    (he : CreatePaymentIntent.falsyStr req.customer_email = false)
    (hw : world.listResult = Except.error e) :
    (CreatePaymentIntent.handler world now req).1 = CreatePaymentIntent.stripeErrorResp e ∧
    (e.type = "StripeCardError" →
      CreatePaymentIntent.stripeErrorResp e =
        ⟨400, CreatePaymentIntent.PIBody.stripeError false e.message "card_error"⟩) ∧
    (e.type = "StripeInvalidRequestError" →
      CreatePaymentIntent.stripeErrorResp e =
        ⟨400, CreatePaymentIntent.PIBody.stripeError false "Invalid payment request"
          "invalid_request"⟩) ∧
    (e.type ≠ "StripeCardError" → e.type ≠ "StripeInvalidRequestError" →
      CreatePaymentIntent.stripeErrorResp e =
        ⟨500, CreatePaymentIntent.PIBody.stripeError false "Payment processing failed"
          "server_error"⟩) := by
  refine ⟨?_, ?_, ?_, ?_⟩
  · unfold CreatePaymentIntent.handler
    simp [hm, ha, hc, hp, he, hw]
  · intro h
    unfold CreatePaymentIntent.stripeErrorResp
    simp [h]
  · intro h
    unfold CreatePaymentIntent.stripeErrorResp
    simp [h]
  · intro h1 h2
    unfold CreatePaymentIntent.stripeErrorResp
    simp [h1, h2]

/-- Witness for the amended C8 at a concrete declined-card error. -/
theorem vendor_error_classification_witness :
    (CreatePaymentIntent.handler CreatePaymentIntent.sampleCardErrorWorld 0
      CreatePaymentIntent.sampleFullReq).1 =
      CreatePaymentIntent.stripeErrorResp ⟨"StripeCardError", "Your card was declined."⟩ ∧
    ("StripeCardError" = "StripeCardError" →
      CreatePaymentIntent.stripeErrorResp ⟨"StripeCardError", "Your card was declined."⟩ =
        ⟨400, CreatePaymentIntent.PIBody.stripeError false "Your card was declined."
          "card_error"⟩) ∧
    ("StripeCardError" = "StripeInvalidRequestError" →
      CreatePaymentIntent.stripeErrorResp ⟨"StripeCardError", "Your card was declined."⟩ =
        ⟨400, CreatePaymentIntent.PIBody.stripeError false "Invalid payment request"
          "invalid_request"⟩) ∧
    ("StripeCardError" ≠ "StripeCardError" → "StripeCardError" ≠ "StripeInvalidRequestError" →
      CreatePaymentIntent.stripeErrorResp ⟨"StripeCardError", "Your card was declined."⟩ =
        ⟨500, CreatePaymentIntent.PIBody.stripeError false "Payment processing failed"
          "server_error"⟩) :=
  vendor_error_classification CreatePaymentIntent.sampleCardErrorWorld 0
    CreatePaymentIntent.sampleFullReq ⟨"StripeCardError", "Your card was declined."⟩
    rfl rfl rfl rfl rfl rfl

/-- C9: the subscription end-date computation maps plan type `weekly` to
start plus 7 days, `monthly` to plus 30, `quarterly` to plus 90, any
other value (including absent) to plus 30, and leaves the start-date
argument unchanged. -/
theorem calculateEndDate_plan_mapping (s : Int) (pt : Option String) :
    (CreatePaymentIntent.calculateEndDate s (some "weekly")).1 = s + 7 ∧
    (CreatePaymentIntent.calculateEndDate s (some "monthly")).1 = s + 30 ∧
    (CreatePaymentIntent.calculateEndDate s (some "quarterly")).1 = s + 90 ∧
    (CreatePaymentIntent.calculateEndDate s none).1 = s + 30 ∧
    (pt ≠ some "weekly" → pt ≠ some "monthly" → pt ≠ some "quarterly" →
      (CreatePaymentIntent.calculateEndDate s pt).1 = s + 30) ∧
    (CreatePaymentIntent.calculateEndDate s pt).2 = s := by
  refine ⟨rfl, rfl, rfl, rfl, ?_, rfl⟩
  intro h1 h2 h3
  simp [CreatePaymentIntent.calculateEndDate, h1, h2, h3]

/-- Witness for C9 at a concrete start date and the unknown plan type
`yearly`. -/
theorem calculateEndDate_plan_mapping_witness :
    (CreatePaymentIntent.calculateEndDate 20000 (some "weekly")).1 = 20000 + 7 ∧
    (CreatePaymentIntent.calculateEndDate 20000 (some "monthly")).1 = 20000 + 30 ∧
    (CreatePaymentIntent.calculateEndDate 20000 (some "quarterly")).1 = 20000 + 90 ∧
    (CreatePaymentIntent.calculateEndDate 20000 none).1 = 20000 + 30 ∧
    (some "yearly" ≠ some "weekly" → some "yearly" ≠ some "monthly" →
      some "yearly" ≠ some "quarterly" →
      (CreatePaymentIntent.calculateEndDate 20000 (some "yearly")).1 = 20000 + 30) ∧
    (CreatePaymentIntent.calculateEndDate 20000 (some "yearly")).2 = 20000 :=
  calculateEndDate_plan_mapping 20000 (some "yearly")

/-- C10: when the created payment intent has status `requires_action` or
`requires_source_action`, the handler responds with HTTP 200 but with
success false, requires_action true, and the intent's client secret in
the body. -/
theorem payment_intent_requires_action_response (world : CreatePaymentIntent.StripeWorld)
    (now : Int) (req : CreatePaymentIntent.PIReq) (c : CreatePaymentIntent.Customer)
    (intent : CreatePaymentIntent.PaymentIntent)
    (hm : req.method = "POST")
    (ha : CreatePaymentIntent.falsyInt req.amount = false)
    (hc : CreatePaymentIntent.falsyStr req.currency = false)
    (hp : CreatePaymentIntent.falsyStr req.payment_method_id = false)
    (he : CreatePaymentIntent.falsyStr req.customer_email = false)
    (hl : world.listResult = Except.ok [c])
    (hi : world.createIntentResult = Except.ok intent)
    (hs : intent.status = "requires_action" ∨ intent.status = "requires_source_action") :
    (CreatePaymentIntent.handler world now req).1.status = 200 ∧
    (CreatePaymentIntent.handler world now req).1.body =
      CreatePaymentIntent.PIBody.requiresAction false true intent.id intent.clientSecret
        intent.status "3D Secure authentication required" := by
  have hstep : CreatePaymentIntent.handler world now req =
      CreatePaymentIntent.intentResp world now req c
        [CreatePaymentIntent.VendorCall.listCustomers] := by
    unfold CreatePaymentIntent.handler
    simp [hm, ha, hc, hp, he, hl]
  rw [hstep]
  unfold CreatePaymentIntent.intentResp
  rw [hi]
  simp [if_pos hs]

/-- Witness for C10 at a concrete intent requiring 3D Secure. -/
theorem payment_intent_requires_action_response_witness :
    (CreatePaymentIntent.handler CreatePaymentIntent.sampleOkWorld 0
      CreatePaymentIntent.sampleFullReq).1.status = 200 ∧
    (CreatePaymentIntent.handler CreatePaymentIntent.sampleOkWorld 0
      CreatePaymentIntent.sampleFullReq).1.body =
      CreatePaymentIntent.PIBody.requiresAction false true
        CreatePaymentIntent.sampleIntent3DS.id
        CreatePaymentIntent.sampleIntent3DS.clientSecret
        CreatePaymentIntent.sampleIntent3DS.status "3D Secure authentication required" :=
  payment_intent_requires_action_response CreatePaymentIntent.sampleOkWorld 0
    CreatePaymentIntent.sampleFullReq CreatePaymentIntent.sampleCustomer
    CreatePaymentIntent.sampleIntent3DS rfl rfl rfl rfl rfl rfl rfl (Or.inl rfl)

end VercelStripe
